import Mathlib

/-! Shallow embedding of the conversation-turn tracking engine of `src/bot.py`
(functions `is_employee`, `track_message`, `handle_partner_message`,
`handle_employee_reply_simple`, `track_response_metrics`,
`track_response_metrics_simple`, the overdue-turn scan inside
`check_unanswered_questions`, and `update_employee_activity_summary`).

Conventions of the embedding:
* timestamps are integer seconds (`Time := Int`); the several `datetime.now()`
  calls made while a single inbound event is processed are represented by one
  arrival time `now` passed to the processing function;
* each SQLite table is a Lean list kept in rowid (insertion) order; an SQL
  `UPDATE` keeps a row's position, `DELETE` followed by `INSERT` moves the
  key to the end of the list;
* the daily-summary table `employee_activity`, whose primary key is
  `(user_id, date)`, is represented as a finite map (a Lean function);
* the source text elides the `[0]` column subscript on `fetchone()` results
  (an artifact of how the file was captured: for example line 1014 of
  `bot.py`, `handlers=`, is not even parseable Python); rows returned by
  `fetchone()` are therefore read through their intended columns;
* an SQLite `IntegrityError` raised by a UNIQUE constraint and caught by the
  code is modelled by the corresponding explicit membership test, and the
  early `return` on a duplicate message (which lets the surrounding
  `with conn` block commit everything already executed) is modelled by
  returning the state reached so far. -/

namespace AffiliateBot

/-- Integer seconds, the granularity at which the engine compares times. -/
abbrev Time := Int

/-- One inbound chat event as delivered by the transport
(`update.message` in `track_message`): sender, chat, message id, text, the
transport timestamp `msg.date`, and the optional explicit reply link
`msg.reply_to_message` (its message id and its `date`). -/
structure Inbound where
  chatId : Nat
  senderId : Nat
  messageId : Nat
  text : String
  date : Time
  repliedTo : Option (Nat × Time)
deriving DecidableEq

/-- A row of the `messages` table (`init_db`, lines 48-62 of `bot.py`).
The display-only columns `username` and `full_name` are elided. -/
structure MsgRow where
  userId : Nat
  chatId : Nat
  messageId : Nat
  text : String
  timestamp : Time
  repliedTo : Option Nat
  wasAnswered : Bool
  isPartnerMessage : Bool
  turnId : Option Nat
deriving DecidableEq

/-- A row of the `unanswered_questions` table (lines 88-97 of `bot.py`):
one open conversation turn, keyed by `(chat_id, partner_user_id)`. -/
structure Turn where
  turnId : Nat
  chatId : Nat
  partnerUserId : Nat
  lastPartnerMessageId : Nat
  lastPartnerMessageText : String
  turnStartTimestamp : Time
  lastMessageTimestamp : Time
  reminded : Bool
deriving DecidableEq

/-- A row of the `response_metrics` table (lines 65-74 of `bot.py`).
`originalSenderUserId` is an `Option` because the explicit-reply recorder
stores `NULL` when the replied-to message is not in the log. -/
structure MetricRow where
  replyMessageId : Nat
  originalMessageId : Nat
  responderUserId : Nat
  originalSenderUserId : Option Nat
  chatId : Nat
  responseDurationSeconds : Time
  timestamp : Time
deriving DecidableEq

/-- The value columns of one `employee_activity` row (lines 77-85). -/
structure ActivityVals where
  messageCount : Nat
  avgResponseTime : Rat
  partnerTurnsInitiated : Nat
  partnerTurnsAnswered : Nat
deriving DecidableEq

/-- The persistent store: the five tables of `init_db` plus the AUTOINCREMENT
counter of `unanswered_questions.turn_id`. -/
structure DB where
  messages : List MsgRow
  turns : List Turn
  metrics : List MetricRow
  employees : List Nat
  activity : Nat → Int → Option ActivityVals
  nextTurnId : Nat

/-- The store just after `init_db`: empty tables, turn ids starting at 1. -/
def dbEmpty : DB :=
  { messages := [], turns := [], metrics := [], employees := [],
    activity := fun _ _ => none, nextTurnId := 1 }

/-- The body of `is_employee` (lines 119-127): the membership query wrapped in
`try/except`, where any store failure makes the function return `False`.
The argument is the outcome of the `SELECT 1 FROM employees` query. -/
def is_employee_from (queryResult : Except String Bool) : Bool :=
  match queryResult with
  | Except.ok b => b
  | Except.error _ => false

/-- `is_employee(user_id)` against a healthy store: membership in the
`employees` table. -/
def is_employee (db : DB) (uid : Nat) : Bool :=
  is_employee_from (Except.ok (db.employees.contains uid))

/-- The `WHERE chat_id = ? AND partner_user_id = ?` key predicate used by the
turn queries of `handle_partner_message` and `handle_employee_reply_simple`. -/
def keyPred (chatId partnerId : Nat) (t : Turn) : Bool :=
  t.chatId == chatId && t.partnerUserId == partnerId

/-- The `SELECT turn_id, last_message_timestamp FROM unanswered_questions`
lookup of `handle_partner_message` (lines 368-374). -/
def findOpenTurn (db : DB) (chatId partnerId : Nat) : Option Turn :=
  db.turns.find? (keyPred chatId partnerId)

/-- The row built by the `INSERT INTO unanswered_questions` of
`handle_partner_message` (lines 398-403). -/
def newTurn (db : DB) (m : Inbound) (now : Time) : Turn :=
  { turnId := db.nextTurnId, chatId := m.chatId, partnerUserId := m.senderId,
    lastPartnerMessageId := m.messageId, lastPartnerMessageText := m.text,
    turnStartTimestamp := now, lastMessageTimestamp := now, reminded := false }

/-- The `INSERT ... RETURNING turn_id` of `handle_partner_message`: appends a
fresh turn and returns its id. -/
def createTurn (db : DB) (m : Inbound) (now : Time) : DB × Option Nat :=
  ({ db with turns := db.turns ++ [newTurn db m now],
             nextTurnId := db.nextTurnId + 1 }, some db.nextTurnId)

/-- The `UPDATE unanswered_questions SET ... WHERE turn_id = ?` of
`handle_partner_message` (lines 384-390), applied to one table row. -/
def extendTurnRow (m : Inbound) (now : Time) (tid : Nat) (t : Turn) : Turn :=
  if t.turnId == tid then
    { t with lastPartnerMessageId := m.messageId,
             lastPartnerMessageText := m.text,
             lastMessageTimestamp := now,
             reminded := false }
  else t

/-- `handle_partner_message` (lines 364-410): look up the open turn for
`(chat_id, sender)`; extend it when the last activity is within the turn
timeout, otherwise delete it and create a fresh turn; create one when no
turn is open.  Returns the updated store and the affected turn id. -/
def handle_partner_message (db : DB) (m : Inbound) (now turnTimeout : Time) :
    DB × Option Nat :=
  match findOpenTurn db m.chatId m.senderId with
  | some t =>
      if now - t.lastMessageTimestamp < turnTimeout then
        ({ db with turns := db.turns.map (extendTurnRow m now t.turnId) },
         some t.turnId)
      else
        createTurn
          { db with turns := db.turns.filter (fun u => !(u.turnId == t.turnId)) }
          m now
  | none => createTurn db m now

/-- `handle_employee_reply_simple` (lines 439-454): delete the open turn of
`(msg.chat_id, partnerId)`; deleting nothing is silently accepted. -/
def handle_employee_reply_simple (db : DB) (m : Inbound) (partnerId : Nat) : DB :=
  { db with turns := db.turns.filter (fun t => !(keyPred m.chatId partnerId t)) }

/-- The UNIQUE(chat_id, reply_message_id) conflict test of the
`response_metrics` inserts (the `except sqlite3.IntegrityError: pass`). -/
def hasMetric (db : DB) (chatId replyId : Nat) : Bool :=
  db.metrics.any (fun r => r.chatId == chatId && r.replyMessageId == replyId)

/-- `UPDATE messages SET was_answered = TRUE WHERE chat_id = ? AND
message_id = ?` (lines 484-485 and 519-520). -/
def markAnswered (db : DB) (chatId msgId : Nat) : DB :=
  { db with messages := db.messages.map (fun r =>
      if r.chatId == chatId && r.messageId == msgId then
        { r with wasAnswered := true }
      else r) }

/-- `track_response_metrics_simple` (lines 496-529): record a response metric
against the last partner message row `(lpMessageId, lpUserId, lpTimestamp)`,
skipping the insert on a UNIQUE conflict, then flip `was_answered`. -/
def track_response_metrics_simple (db : DB) (m : Inbound) (now : Time)
    (lpMessageId lpUserId : Nat) (lpTimestamp : Time) : DB :=
  let dur := now - lpTimestamp
  let db1 :=
    if hasMetric db m.chatId m.messageId then db
    else
      { db with metrics := db.metrics ++
          [{ replyMessageId := m.messageId, originalMessageId := lpMessageId,
             responderUserId := m.senderId, originalSenderUserId := some lpUserId,
             chatId := m.chatId, responseDurationSeconds := dur,
             timestamp := now }] }
  markAnswered db1 m.chatId lpMessageId

/-- `track_response_metrics` (lines 456-494): the explicit-reply recorder,
run for any sender whose message carries a reply link when the simple path
did not fire.  The duration comes from the transport timestamps
(`msg.date - msg.reply_to_message.date`), the original sender from a log
lookup. -/
def track_response_metrics (db : DB) (m : Inbound) (now : Time)
    (origId : Nat) (origDate : Time) : DB :=
  let dur := m.date - origDate
  let origSender :=
    (db.messages.find? (fun r => r.chatId == m.chatId && r.messageId == origId)).map
      (fun r => r.userId)
  let db1 :=
    if hasMetric db m.chatId m.messageId then db
    else
      { db with metrics := db.metrics ++
          [{ replyMessageId := m.messageId, originalMessageId := origId,
             responderUserId := m.senderId, originalSenderUserId := origSender,
             chatId := m.chatId, responseDurationSeconds := dur,
             timestamp := now }] }
  markAnswered db1 m.chatId origId

/-- The `SELECT ... WHERE chat_id = ? AND is_partner_message = 1 ORDER BY
timestamp DESC LIMIT 1` of `track_message` (lines 307-315).  Ties on the
timestamp resolve to the most recently inserted row, as a descending scan
of the `(chat_id, timestamp)` index does. -/
def lastPartnerMsg (db : DB) (chatId : Nat) : Option MsgRow :=
  (db.messages.filter (fun r => r.chatId == chatId && r.isPartnerMessage)).foldl
    (fun acc r =>
      match acc with
      | none => some r
      | some b => if r.timestamp ≥ b.timestamp then some r else some b)
    none

/-- The UNIQUE(chat_id, message_id) duplicate test of the `messages` insert
(the `except sqlite3.IntegrityError: return` of lines 335-337). -/
def hasMessage (db : DB) (chatId msgId : Nat) : Bool :=
  db.messages.any (fun r => r.chatId == chatId && r.messageId == msgId)

/-- The row built by the `INSERT INTO messages` of `track_message`
(lines 327-334). -/
def storedRow (m : Inbound) (now : Time) (isPartner : Bool)
    (turnId : Option Nat) : MsgRow :=
  { userId := m.senderId, chatId := m.chatId, messageId := m.messageId,
    text := m.text, timestamp := now, repliedTo := m.repliedTo.map Prod.fst,
    wasAnswered := false, isPartnerMessage := isPartner, turnId := turnId }

/-- `track_message` (lines 288-362), processing one inbound event:
classify the sender, for an employee look up the last partner message row,
for a partner run the turn state machine, insert the message row (returning
with what was already done committed when the insert hits the UNIQUE
constraint), then run the simple reply/metric path for an employee with a
last partner message, or the explicit-reply recorder when a reply link is
present. -/
def track_message (db : DB) (m : Inbound) (now turnTimeout : Time) : DB :=
  let senderIsEmployee := is_employee db m.senderId
  let isPartnerMessage := !senderIsEmployee
  let lastPartner := if senderIsEmployee then lastPartnerMsg db m.chatId else none
  let step :=
    if isPartnerMessage then handle_partner_message db m now turnTimeout
    else (db, none)
  let db1 := step.1
  if hasMessage db1 m.chatId m.messageId then db1
  else
    let db2 :=
      { db1 with messages :=
          db1.messages ++ [storedRow m now isPartnerMessage step.2] }
    match lastPartner with
    | some lp =>
        track_response_metrics_simple
          (handle_employee_reply_simple db2 m lp.userId)
          m now lp.messageId lp.userId lp.timestamp
    | none =>
        match m.repliedTo with
        | some rt => track_response_metrics db2 m now rt.1 rt.2
        | none => db2

/-- The `WHERE reminded = FALSE AND (JULIANDAY(?) - JULIANDAY(...)) * 86400
> ?` filter of `check_unanswered_questions` (lines 141-147), at integer
seconds. -/
def overduePred (now threshold : Time) (t : Turn) : Bool :=
  t.reminded == false && decide (now - t.lastMessageTimestamp > threshold)

/-- The overdue-turn scan of `check_unanswered_questions`: the SELECT of
lines 141-149.  The query has no ORDER BY, so rows come back in table
(rowid) order. -/
def scan_overdue (db : DB) (now threshold : Time) : List Turn :=
  db.turns.filter (overduePred now threshold)

/-- `UPDATE unanswered_questions SET reminded = TRUE WHERE turn_id = ?`
(line 186). -/
def mark_reminded (db : DB) (tid : Nat) : DB :=
  { db with turns := db.turns.map (fun t =>
      if t.turnId == tid then { t with reminded := true } else t) }

/-- SQLite `DATE(timestamp)` at integer seconds: the civil day index. -/
def dateOf (t : Time) : Int := t / 86400

/-- The `messages` rows of a given day. -/
def messagesOn (db : DB) (today : Int) : List MsgRow :=
  db.messages.filter (fun r => dateOf r.timestamp == today)

/-- The `response_metrics` rows of a given day. -/
def metricsOn (db : DB) (today : Int) : List MetricRow :=
  db.metrics.filter (fun r => dateOf r.timestamp == today)

/-- `SELECT user_id, COUNT(id) ... GROUP BY user_id` of
`update_employee_activity_summary` (lines 208-215), for one user. -/
def messageCountFor (db : DB) (today : Int) (uid : Nat) : Nat :=
  ((messagesOn db today).filter (fun r => r.userId == uid)).length

/-- The day's metrics whose original sender is not an employee: the
`original_sender_user_id NOT IN (SELECT user_id FROM employees)` filter of
lines 218-226.  A NULL original sender never satisfies SQL `NOT IN`. -/
def partnerAnsweredRows (db : DB) (today : Int) : List MetricRow :=
  (metricsOn db today).filter (fun r =>
    match r.originalSenderUserId with
    | some s => !(db.employees.contains s)
    | none => false)

/-- `COUNT(reply_message_id)` of the partner-answered metrics of one
responder. -/
def partnerAnsweredFor (db : DB) (today : Int) (uid : Nat) : Nat :=
  ((partnerAnsweredRows db today).filter (fun r => r.responderUserId == uid)).length

/-- The day's metrics of one responder (the `response_times` GROUP BY of
lines 229-236). -/
def responderRows (db : DB) (today : Int) (uid : Nat) : List MetricRow :=
  (metricsOn db today).filter (fun r => r.responderUserId == uid)

/-- `AVG(response_duration_seconds)` of one responder's rows of the day. -/
def avgResponseFor (db : DB) (today : Int) (uid : Nat) : Rat :=
  let l := (responderRows db today uid).map (fun r => r.responseDurationSeconds)
  ((l.foldl (fun a b => a + b) 0 : Int) : Rat) / (l.length : Rat)

/-- The distinct senders of the day's messages: the keys first put into
`activity_updates` (lines 248-254). -/
def activitySenders (db : DB) (today : Int) : List Nat :=
  ((messagesOn db today).map (fun r => r.userId)).dedup

/-- The distinct responders among the day's partner-answered metrics: the
keys added by the second loop (lines 257-265). -/
def activityResponders (db : DB) (today : Int) : List Nat :=
  ((partnerAnsweredRows db today).map (fun r => r.responderUserId)).dedup

/-- All keys of `activity_updates` once both loops ran. -/
def activityKeys (db : DB) (today : Int) : List Nat :=
  (activitySenders db today ++ activityResponders db today).dedup

/-- The consolidated `activity_updates[uid]` value (lines 245-270): message
count, average response time (set only for users that have response rows,
as the third loop only touches keys already present), zero turns initiated,
and the partner-answered count. -/
def activityRowFor (db : DB) (today : Int) (uid : Nat) : ActivityVals :=
  { messageCount := messageCountFor db today uid,
    avgResponseTime :=
      if (responderRows db today uid).isEmpty then 0
      else avgResponseFor db today uid,
    partnerTurnsInitiated := 0,
    partnerTurnsAnswered := partnerAnsweredFor db today uid }

/-- The batch of `INSERT OR REPLACE INTO employee_activity` upserts of
lines 273-279, as the map they leave behind: every `(uid, today)` key of
`activity_updates` now holds its recomputed row. -/
def summaryWrite (db : DB) (today : Int) : Nat → Int → Option ActivityVals :=
  fun uid d =>
    if d == today && (activityKeys db today).contains uid then
      some (activityRowFor db today uid)
    else db.activity uid d

/-- `update_employee_activity_summary` (lines 200-285).  The table's foreign
key `employee_activity.user_id REFERENCES employees` is enforced
(`PRAGMA foreign_keys = ON`), so an update batch that touches any user
outside `employees` raises, the `with` block rolls the transaction back and
the `except` swallows the error: the run then leaves the store unchanged. -/
def update_employee_activity_summary (db : DB) (today : Int) : DB :=
  if (activityKeys db today).all (fun uid => db.employees.contains uid) then
    { db with activity := summaryWrite db today }
  else db

/-- The `UNIQUE(chat_id, reply_message_id)` row count for one key of
`response_metrics`. -/
def countMetric (db : DB) (chatId replyId : Nat) : Nat :=
  (db.metrics.filter (fun r => r.chatId == chatId && r.replyMessageId == replyId)).length

/-- Per-row well-formedness helper: `t` clashes with none of `ts`, neither on
`turn_id` (the AUTOINCREMENT primary key) nor on the UNIQUE
`(chat_id, partner_user_id)` key. -/
def keyFree (ts : List Turn) (t : Turn) : Bool :=
  ts.all (fun u =>
    (u.turnId != t.turnId) &&
    (u.chatId != t.chatId || u.partnerUserId != t.partnerUserId))

/-- The turn table satisfies its two uniqueness constraints. -/
def turnsOk : List Turn → Bool
  | [] => true
  | t :: ts => keyFree ts t && turnsOk ts

/-- Turn-table well-formedness plus the AUTOINCREMENT bound: ids are unique,
keys are unique, every id is below the next id to be handed out. -/
def turnsWFcore (ts : List Turn) (next : Nat) : Bool :=
  turnsOk ts && ts.all (fun t => decide (t.turnId < next))

/-- Store invariants that SQLite enforces on `unanswered_questions`. -/
def dbWF (db : DB) : Bool :=
  turnsWFcore db.turns db.nextTurnId

/-- Partner 100's message 1 in chat 2, for the duplicate-delivery run. -/
def c1m : Inbound := ⟨2, 100, 1, "hello", 0, none⟩

/-- Partner 100's message 1 in chat 3, for the after-timeout duplicate run. -/
def c3m : Inbound := ⟨3, 100, 1, "hello", 0, none⟩

/-- Partner 101's fresh message 7 in chat 3. -/
def c3wm : Inbound := ⟨3, 101, 7, "hi", 50, none⟩

/-- A store with employee 201, partner 102's logged message and its open
turn in chat 11. -/
def c3wdb2 : DB :=
  { dbEmpty with
      employees := [201],
      messages := [⟨102, 11, 1, "q", 0, none, false, true, some 1⟩],
      turns := [⟨1, 11, 102, 1, "q", 0, 0, false⟩],
      nextTurnId := 2 }

/-- Employee 201's reply 2 in chat 11. -/
def c3wm2 : Inbound := ⟨11, 201, 2, "a", 20, none⟩

/-- Partner 100's message 1 in chat 4. -/
def c2m1 : Inbound := ⟨4, 100, 1, "q", 0, none⟩

/-- Employee 200's reply 2 in chat 4. -/
def c2me : Inbound := ⟨4, 200, 2, "a", 10, none⟩

/-- A store registering employee 200. -/
def c2db0 : DB := { dbEmpty with employees := [200] }

/-- A store with employee 200, one logged partner message and its open turn
in chat 1. -/
def c2wdb : DB :=
  { dbEmpty with
      employees := [200],
      messages := [⟨100, 1, 1, "q", 0, none, false, true, some 1⟩],
      turns := [⟨1, 1, 100, 1, "q", 0, 0, false⟩],
      nextTurnId := 2 }

/-- Employee 200's reply 2 in chat 1. -/
def c2wm : Inbound := ⟨1, 200, 2, "a", 30, none⟩

/-- A store with employee 200 and a logged partner message in chat 5 whose
turn is already gone. -/
def c4db : DB :=
  { dbEmpty with
      employees := [200],
      messages := [⟨100, 5, 1, "q", 0, none, false, true, none⟩] }

/-- Employee 200's message 2 in chat 5. -/
def c4m : Inbound := ⟨5, 200, 2, "a", 40, none⟩

/-- A store with employee 300 and a logged partner message in chat 6, no open
turn. -/
def c4wdb : DB :=
  { dbEmpty with
      employees := [300],
      messages := [⟨100, 6, 1, "q", 0, none, false, true, none⟩] }

/-- Employee 300's message 2 in chat 6. -/
def c4wm : Inbound := ⟨6, 300, 2, "a", 25, none⟩

/-- Partner 100's messages 1 and 2 in chat 1, ten seconds apart. -/
def c5m1 : Inbound := ⟨1, 100, 1, "q1", 0, none⟩

/-- The second of the two messages of the within-timeout run. -/
def c5m2 : Inbound := ⟨1, 100, 2, "q2", 10, none⟩

/-- Partner 100's message 1 in chat 7. -/
def c6m1 : Inbound := ⟨7, 100, 1, "q1", 0, none⟩

/-- Partner 100's message 2 in chat 7, past the timeout, explicitly replying
to message 1. -/
def c6m2 : Inbound := ⟨7, 100, 2, "q2", 4000, some (1, 0)⟩

/-- Partner 100's message 1 in chat 8. -/
def c6wm1 : Inbound := ⟨8, 100, 1, "q1", 0, none⟩

/-- Partner 100's message 2 in chat 8, past the timeout, without a reply
link. -/
def c6wm2 : Inbound := ⟨8, 100, 2, "q2", 9000, none⟩

/-- Partner 100's message 1 in chat 1, for the scan-order run. -/
def c7mA : Inbound := ⟨1, 100, 1, "a", 0, none⟩

/-- Partner 101's message 2 in chat 1, one second later. -/
def c7mB : Inbound := ⟨1, 101, 2, "b", 1, none⟩

/-- Partner 100's follow-up message 3 in chat 1, four seconds later. -/
def c7mA2 : Inbound := ⟨1, 100, 3, "c", 5, none⟩

/-- The store after the three partner messages above: turn 1 of partner 100
was created first but extended last, so table order disagrees with
oldest-first order. -/
def c7run : DB :=
  track_message
    (track_message (track_message dbEmpty c7mA 0 3600) c7mB 1 3600)
    c7mA2 5 3600

/-- A store registering employee 200, with no turns and no metrics. -/
def c8db : DB := { dbEmpty with employees := [200] }

/-- Employee 200's message 4 in chat 9. -/
def c8m : Inbound := ⟨9, 200, 4, "a", 60, none⟩

lemma filter_nil_of_find?_none {α : Type} {p : α → Bool} {l : List α}
    (h : l.find? p = none) : l.filter p = [] := by
  rw [List.filter_eq_nil_iff]
  exact List.find?_eq_none.mp h

lemma find?_of_filter_singleton {α : Type} {p : α → Bool} {l : List α} {a : α}
    (h : l.filter p = [a]) : l.find? p = some a := by
  induction l with
  | nil => simp at h
  | cons b l ih =>
    by_cases hpb : p b = true
    · simp only [List.filter_cons, hpb, if_true, List.cons.injEq] at h
      obtain ⟨rfl, h2⟩ := h
      simp [List.find?_cons, hpb]
    · have hpb' : p b = false := by rwa [Bool.eq_false_iff]
      simp only [List.filter_cons, hpb', Bool.false_eq_true, if_false] at h
      simp only [List.find?_cons, hpb']
      exact ih h

lemma filter_map_comm {α : Type} (f : α → α) (p : α → Bool)
    (hp : ∀ a, p (f a) = p a) (l : List α) :
    (l.map f).filter p = (l.filter p).map f := by
  rw [List.filter_map]
  have he : (p ∘ f) = p := funext hp
  rw [he]

lemma keyFree_iff (ts : List Turn) (t : Turn) :
    keyFree ts t = true ↔ ∀ u ∈ ts,
      ((u.turnId != t.turnId) &&
       (u.chatId != t.chatId || u.partnerUserId != t.partnerUserId)) = true := by
  unfold keyFree
  exact List.all_eq_true

lemma turnsOk_cons (a : Turn) (ts : List Turn) :
    turnsOk (a :: ts) = (keyFree ts a && turnsOk ts) := rfl

lemma keyFree_no_match {ts : List Turn} {t : Turn} (h : keyFree ts t = true)
    {c p : Nat} (ht : keyPred c p t = true) :
    ∀ u ∈ ts, keyPred c p u = false := by
  intro u hu
  have hcl := (keyFree_iff ts t).mp h u hu
  simp only [Bool.and_eq_true, Bool.or_eq_true, bne_iff_ne, ne_eq] at hcl
  rw [Bool.eq_false_iff]
  intro hup
  simp only [keyPred, Bool.and_eq_true, beq_iff_eq] at hup ht
  rcases hcl.2 with h2 | h2
  · exact h2 (hup.1.trans ht.1.symm)
  · exact h2 (hup.2.trans ht.2.symm)

lemma filter_key_unique {ts : List Turn} (h : turnsOk ts = true) {c p : Nat}
    {t0 : Turn} (hf : ts.find? (keyPred c p) = some t0) :
    ts.filter (keyPred c p) = [t0] := by
  induction ts with
  | nil => simp at hf
  | cons a ts ih =>
    rw [turnsOk_cons, Bool.and_eq_true] at h
    by_cases hpa : keyPred c p a = true
    · simp only [List.find?_cons, hpa, Option.some.injEq] at hf
      simp only [List.filter_cons, hpa, if_true]
      have hnil : ts.filter (keyPred c p) = [] := by
        rw [List.filter_eq_nil_iff]
        intro u hu
        have := keyFree_no_match h.1 hpa u hu
        simp [this]
      rw [hnil, hf]
    · have hpa' : keyPred c p a = false := by rwa [Bool.eq_false_iff]
      simp only [List.find?_cons, hpa'] at hf
      simp only [List.filter_cons, hpa', Bool.false_eq_true, if_false]
      exact ih h.2 hf

lemma clash_symm (a n : Turn)
    (h : ((a.turnId != n.turnId) &&
          (a.chatId != n.chatId || a.partnerUserId != n.partnerUserId)) = true) :
    ((n.turnId != a.turnId) &&
     (n.chatId != a.chatId || n.partnerUserId != a.partnerUserId)) = true := by
  simp only [Bool.and_eq_true, Bool.or_eq_true, bne_iff_ne, ne_eq] at h ⊢
  refine ⟨fun he => h.1 he.symm, ?_⟩
  rcases h.2 with h2 | h2
  · exact Or.inl (fun he => h2 he.symm)
  · exact Or.inr (fun he => h2 he.symm)

lemma keyFree_filter (q : Turn → Bool) {ts : List Turn} {t : Turn}
    (h : keyFree ts t = true) : keyFree (ts.filter q) t = true := by
  rw [keyFree_iff] at h ⊢
  intro u hu
  exact h u (List.mem_filter.mp hu).1

lemma turnsOk_filter (q : Turn → Bool) {ts : List Turn}
    (h : turnsOk ts = true) : turnsOk (ts.filter q) = true := by
  induction ts with
  | nil => rfl
  | cons a ts ih =>
    rw [turnsOk_cons, Bool.and_eq_true] at h
    by_cases hq : q a = true
    · simp only [List.filter_cons, hq, if_true, turnsOk_cons, Bool.and_eq_true]
      exact ⟨keyFree_filter q h.1, ih h.2⟩
    · have hq' : q a = false := by rwa [Bool.eq_false_iff]
      simp only [List.filter_cons, hq', Bool.false_eq_true, if_false]
      exact ih h.2

lemma turnsOk_append_one {ts : List Turn} {n : Turn}
    (h : turnsOk ts = true)
    (hfree : ∀ t ∈ ts, ((t.turnId != n.turnId) &&
      (t.chatId != n.chatId || t.partnerUserId != n.partnerUserId)) = true) :
    turnsOk (ts ++ [n]) = true := by
  induction ts with
  | nil => rfl
  | cons a ts ih =>
    rw [turnsOk_cons, Bool.and_eq_true] at h
    rw [List.cons_append, turnsOk_cons, Bool.and_eq_true]
    constructor
    · rw [keyFree_iff]
      intro u hu
      rcases List.mem_append.mp hu with hin | hin
      · exact (keyFree_iff ts a).mp h.1 u hin
      · rw [List.mem_singleton.mp hin]
        exact clash_symm a n (hfree a (List.mem_cons_self a ts))
    · exact ih h.2 (fun t ht => hfree t (List.mem_cons_of_mem a ht))

lemma extendTurnRow_id (m : Inbound) (now : Time) (tid : Nat) (t : Turn) :
    (extendTurnRow m now tid t).turnId = t.turnId := by
  unfold extendTurnRow
  split <;> rfl

lemma extendTurnRow_chat (m : Inbound) (now : Time) (tid : Nat) (t : Turn) :
    (extendTurnRow m now tid t).chatId = t.chatId := by
  unfold extendTurnRow
  split <;> rfl

lemma extendTurnRow_partner (m : Inbound) (now : Time) (tid : Nat) (t : Turn) :
    (extendTurnRow m now tid t).partnerUserId = t.partnerUserId := by
  unfold extendTurnRow
  split <;> rfl

lemma keyPred_extend (c p : Nat) (m : Inbound) (now : Time) (tid : Nat) (t : Turn) :
    keyPred c p (extendTurnRow m now tid t) = keyPred c p t := by
  unfold keyPred
  rw [extendTurnRow_chat, extendTurnRow_partner]

lemma keyFree_map_extend (m : Inbound) (now : Time) (tid : Nat)
    {ts : List Turn} {t : Turn} (h : keyFree ts t = true) :
    keyFree (ts.map (extendTurnRow m now tid)) (extendTurnRow m now tid t) = true := by
  rw [keyFree_iff] at h ⊢
  intro u hu
  rcases List.mem_map.mp hu with ⟨v, hv, rfl⟩
  have := h v hv
  simp only [extendTurnRow_id, extendTurnRow_chat, extendTurnRow_partner]
  exact this

lemma turnsOk_map_extend (m : Inbound) (now : Time) (tid : Nat)
    {ts : List Turn} (h : turnsOk ts = true) :
    turnsOk (ts.map (extendTurnRow m now tid)) = true := by
  induction ts with
  | nil => rfl
  | cons a ts ih =>
    rw [turnsOk_cons, Bool.and_eq_true] at h
    rw [List.map_cons, turnsOk_cons, Bool.and_eq_true]
    exact ⟨keyFree_map_extend m now tid h.1, ih h.2⟩

lemma all_map_comp {α β : Type} (g : α → Bool) (f : β → α) (l : List β) :
    (l.map f).all g = l.all (fun b => g (f b)) := by
  induction l with
  | nil => rfl
  | cons a l ih => simp [List.all_cons, ih]

lemma dbWF_split {db : DB} (h : dbWF db = true) :
    turnsOk db.turns = true ∧
    db.turns.all (fun t => decide (t.turnId < db.nextTurnId)) = true := by
  unfold dbWF turnsWFcore at h
  rw [Bool.and_eq_true] at h
  exact h

lemma findOpenTurn_mem {db : DB} {c p : Nat} {t0 : Turn}
    (h : findOpenTurn db c p = some t0) : t0 ∈ db.turns :=
  List.mem_of_find?_eq_some h

lemma findOpenTurn_pred {db : DB} {c p : Nat} {t0 : Turn}
    (h : findOpenTurn db c p = some t0) : keyPred c p t0 = true :=
  List.find?_some h

lemma key_clash_of_not_keyPred {t : Turn} {c p : Nat}
    (h : keyPred c p t = false) :
    (t.chatId != c || t.partnerUserId != p) = true := by
  have h' : ¬(t.chatId = c ∧ t.partnerUserId = p) := by
    intro hc
    have : keyPred c p t = true := by simp [keyPred, hc.1, hc.2]
    rw [h] at this
    exact absurd this (by simp)
  rw [Bool.or_eq_true]
  by_cases hch : t.chatId = c
  · exact Or.inr (bne_iff_ne.mpr (fun hp => h' ⟨hch, hp⟩))
  · exact Or.inl (bne_iff_ne.mpr hch)

lemma handle_partner_none (db : DB) (m : Inbound) (now tmo : Time)
    (hf : findOpenTurn db m.chatId m.senderId = none) :
    handle_partner_message db m now tmo = createTurn db m now := by
  unfold handle_partner_message
  rw [hf]

lemma handle_partner_in {db : DB} {m : Inbound} {now tmo : Time} {t0 : Turn}
    (hf : findOpenTurn db m.chatId m.senderId = some t0)
    (hin : now - t0.lastMessageTimestamp < tmo) :
    handle_partner_message db m now tmo =
      ({ db with turns := db.turns.map (extendTurnRow m now t0.turnId) },
       some t0.turnId) := by
  unfold handle_partner_message
  rw [hf]
  exact if_pos hin

lemma handle_partner_out {db : DB} {m : Inbound} {now tmo : Time} {t0 : Turn}
    (hf : findOpenTurn db m.chatId m.senderId = some t0)
    (hout : ¬(now - t0.lastMessageTimestamp < tmo)) :
    handle_partner_message db m now tmo =
      createTurn
        { db with turns := db.turns.filter (fun u => !(u.turnId == t0.turnId)) }
        m now := by
  unfold handle_partner_message
  rw [hf]
  exact if_neg hout

lemma createTurn_key {db : DB} {m : Inbound} {now : Time}
    (hnil : db.turns.filter (keyPred m.chatId m.senderId) = []) :
    (createTurn db m now).1.turns.filter (keyPred m.chatId m.senderId) =
      [newTurn db m now] := by
  show (db.turns ++ [newTurn db m now]).filter (keyPred m.chatId m.senderId) = _
  rw [List.filter_append, hnil]
  simp [keyPred, newTurn]

lemma extendTurnRow_self (m : Inbound) (now : Time) (t0 : Turn) :
    extendTurnRow m now t0.turnId t0 =
      { t0 with lastPartnerMessageId := m.messageId,
                lastPartnerMessageText := m.text,
                lastMessageTimestamp := now,
                reminded := false } := by
  unfold extendTurnRow
  rw [if_pos (by simp : (t0.turnId == t0.turnId) = true)]

lemma handle_partner_key (db : DB) (m : Inbound) (now tmo : Time)
    (h : dbWF db = true) :
    ∃ t, (handle_partner_message db m now tmo).1.turns.filter
           (keyPred m.chatId m.senderId) = [t] ∧
      t.lastPartnerMessageId = m.messageId ∧
      t.lastPartnerMessageText = m.text ∧
      t.lastMessageTimestamp = now ∧ t.reminded = false := by
  obtain ⟨hok, _⟩ := dbWF_split h
  cases hf : findOpenTurn db m.chatId m.senderId with
  | none =>
    rw [handle_partner_none db m now tmo hf]
    exact ⟨newTurn db m now, createTurn_key (filter_nil_of_find?_none hf),
           rfl, rfl, rfl, rfl⟩
  | some t0 =>
    by_cases hin : now - t0.lastMessageTimestamp < tmo
    · rw [handle_partner_in hf hin]
      have hfilter := filter_key_unique hok hf
      refine ⟨extendTurnRow m now t0.turnId t0, ?_, ?_, ?_, ?_, ?_⟩
      · show (db.turns.map (extendTurnRow m now t0.turnId)).filter
            (keyPred m.chatId m.senderId) = _
        rw [filter_map_comm _ _
              (fun t => keyPred_extend m.chatId m.senderId m now t0.turnId t)
              db.turns, hfilter]
        rfl
      all_goals rw [extendTurnRow_self]
    · rw [handle_partner_out hf hin]
      have hfilter := filter_key_unique hok hf
      have hnil : (db.turns.filter (fun u => !(u.turnId == t0.turnId))).filter
          (keyPred m.chatId m.senderId) = [] := by
        rw [List.filter_comm, hfilter]
        simp
      exact ⟨newTurn _ m now, createTurn_key hnil, rfl, rfl, rfl, rfl⟩

lemma handle_partner_key_fresh (db : DB) (m : Inbound) (now tmo : Time)
    (t0 : Turn) (h : dbWF db = true)
    (hf : findOpenTurn db m.chatId m.senderId = some t0)
    (hout : ¬(now - t0.lastMessageTimestamp < tmo)) :
    ∃ t, (handle_partner_message db m now tmo).1.turns.filter
           (keyPred m.chatId m.senderId) = [t] ∧
      t.lastPartnerMessageId = m.messageId ∧
      t.turnStartTimestamp = now ∧
      t.lastMessageTimestamp = now ∧ t.reminded = false := by
  obtain ⟨hok, _⟩ := dbWF_split h
  rw [handle_partner_out hf hout]
  have hfilter := filter_key_unique hok hf
  have hnil : (db.turns.filter (fun u => !(u.turnId == t0.turnId))).filter
      (keyPred m.chatId m.senderId) = [] := by
    rw [List.filter_comm, hfilter]
    simp
  exact ⟨newTurn _ m now, createTurn_key hnil, rfl, rfl, rfl, rfl⟩

lemma handle_partner_WF (db : DB) (m : Inbound) (now tmo : Time)
    (h : dbWF db = true) :
    dbWF (handle_partner_message db m now tmo).1 = true := by
  obtain ⟨hok, hbound⟩ := dbWF_split h
  rw [List.all_eq_true] at hbound
  cases hf : findOpenTurn db m.chatId m.senderId with
  | none =>
    rw [handle_partner_none db m now tmo hf]
    unfold dbWF turnsWFcore
    show (turnsOk (db.turns ++ [newTurn db m now]) &&
      (db.turns ++ [newTurn db m now]).all
        (fun t => decide (t.turnId < db.nextTurnId + 1))) = true
    rw [Bool.and_eq_true]
    constructor
    · apply turnsOk_append_one hok
      intro t ht
      rw [Bool.and_eq_true]
      refine ⟨?_, ?_⟩
      · have hb := hbound t ht
        rw [decide_eq_true_eq] at hb
        exact bne_iff_ne.mpr (Nat.ne_of_lt hb)
      · have hnp : keyPred m.chatId m.senderId t = false := by
          rw [Bool.eq_false_iff]
          exact List.find?_eq_none.mp hf t ht
        exact key_clash_of_not_keyPred hnp
    · rw [List.all_append, Bool.and_eq_true]
      constructor
      · rw [List.all_eq_true]
        intro t ht
        have hb := hbound t ht
        rw [decide_eq_true_eq] at hb ⊢
        exact Nat.lt_succ_of_lt hb
      · simp [newTurn]
  | some t0 =>
    by_cases hin : now - t0.lastMessageTimestamp < tmo
    · rw [handle_partner_in hf hin]
      unfold dbWF turnsWFcore
      show (turnsOk (db.turns.map (extendTurnRow m now t0.turnId)) &&
        (db.turns.map (extendTurnRow m now t0.turnId)).all
          (fun t => decide (t.turnId < db.nextTurnId))) = true
      rw [Bool.and_eq_true]
      refine ⟨turnsOk_map_extend m now t0.turnId hok, ?_⟩
      rw [all_map_comp]
      rw [List.all_eq_true]
      intro t ht
      rw [extendTurnRow_id]
      exact hbound t ht
    · rw [handle_partner_out hf hin]
      have hfilter := filter_key_unique hok hf
      unfold dbWF turnsWFcore
      simp only [createTurn]
      rw [Bool.and_eq_true]
      constructor
      · apply turnsOk_append_one (turnsOk_filter _ hok)
        intro t ht
        have hmem := List.mem_filter.mp ht
        rw [Bool.and_eq_true]
        refine ⟨?_, ?_⟩
        · have hb := hbound t hmem.1
          rw [decide_eq_true_eq] at hb
          exact bne_iff_ne.mpr (Nat.ne_of_lt hb)
        · have hnp : keyPred m.chatId m.senderId t = false := by
            rw [Bool.eq_false_iff]
            intro hkp
            have htin : t ∈ db.turns.filter (keyPred m.chatId m.senderId) :=
              List.mem_filter.mpr ⟨hmem.1, hkp⟩
            rw [hfilter, List.mem_singleton] at htin
            subst htin
            simp at hmem
          exact key_clash_of_not_keyPred hnp
      · rw [List.all_append, Bool.and_eq_true]
        constructor
        · rw [List.all_eq_true]
          intro t ht
          have hb := hbound t (List.mem_filter.mp ht).1
          rw [decide_eq_true_eq] at hb ⊢
          exact Nat.lt_succ_of_lt hb
        · simp [newTurn]

lemma handle_partner_proj (db : DB) (m : Inbound) (now tmo : Time) :
    (handle_partner_message db m now tmo).1.messages = db.messages ∧
    (handle_partner_message db m now tmo).1.metrics = db.metrics ∧
    (handle_partner_message db m now tmo).1.employees = db.employees := by
  unfold handle_partner_message createTurn
  cases findOpenTurn db m.chatId m.senderId with
  | none => exact ⟨rfl, rfl, rfl⟩
  | some t => by_cases h : now - t.lastMessageTimestamp < tmo <;> simp [h]

lemma track_response_metrics_simple_proj (db : DB) (m : Inbound) (now : Time)
    (i u : Nat) (lts : Time) :
    (track_response_metrics_simple db m now i u lts).turns = db.turns ∧
    (track_response_metrics_simple db m now i u lts).employees = db.employees ∧
    (track_response_metrics_simple db m now i u lts).nextTurnId = db.nextTurnId := by
  unfold track_response_metrics_simple markAnswered
  by_cases h : hasMetric db m.chatId m.messageId = true <;> simp [h]

lemma track_response_metrics_proj (db : DB) (m : Inbound) (now : Time)
    (oid : Nat) (od : Time) :
    (track_response_metrics db m now oid od).turns = db.turns ∧
    (track_response_metrics db m now oid od).employees = db.employees ∧
    (track_response_metrics db m now oid od).metrics = (
      if hasMetric db m.chatId m.messageId then db.metrics
      else db.metrics ++
        [{ replyMessageId := m.messageId, originalMessageId := oid,
           responderUserId := m.senderId,
           originalSenderUserId :=
             (db.messages.find? (fun r =>
               r.chatId == m.chatId && r.messageId == oid)).map (fun r => r.userId),
           chatId := m.chatId, responseDurationSeconds := m.date - od,
           timestamp := now }]) ∧
    (track_response_metrics db m now oid od).nextTurnId = db.nextTurnId := by
  unfold track_response_metrics markAnswered
  by_cases h : hasMetric db m.chatId m.messageId = true <;> simp [h]

lemma track_message_partner_proj (db : DB) (m : Inbound) (now tmo : Time)
    (hp : is_employee db m.senderId = false) :
    (track_message db m now tmo).turns =
      (handle_partner_message db m now tmo).1.turns ∧
    (track_message db m now tmo).nextTurnId =
      (handle_partner_message db m now tmo).1.nextTurnId ∧
    (track_message db m now tmo).employees = db.employees ∧
    (m.repliedTo = none →
      (track_message db m now tmo).metrics = db.metrics) := by
  have hpp := handle_partner_proj db m now tmo
  have h2 := hpp.2.1
  have h3 := hpp.2.2
  unfold track_message
  simp only [hp, Bool.not_false, if_true]
  by_cases hd : hasMessage (handle_partner_message db m now tmo).1
      m.chatId m.messageId = true
  · simp [hd, h2, h3]
  · cases hr : m.repliedTo with
    | none => simp [hd, hr, h2, h3]
    | some rt =>
      simp only [hd, hr, Bool.false_eq_true, if_false]
      exact ⟨(track_response_metrics_proj _ m now rt.1 rt.2).1,
             (track_response_metrics_proj _ m now rt.1 rt.2).2.2.2,
             ((track_response_metrics_proj _ m now rt.1 rt.2).2.1).trans h3,
             fun hno => nomatch hno⟩

lemma track_message_employee_simple (db : DB) (m : Inbound) (now tmo : Time)
    (lp : MsgRow)
    (hemp : is_employee db m.senderId = true)
    (hlp : lastPartnerMsg db m.chatId = some lp)
    (hdup : hasMessage db m.chatId m.messageId = false) :
    track_message db m now tmo =
      track_response_metrics_simple
        (handle_employee_reply_simple
          { db with messages := db.messages ++ [storedRow m now false none] }
          m lp.userId)
        m now lp.messageId lp.userId lp.timestamp := by
  unfold track_message
  simp only [hemp, hlp, hdup, Bool.not_true, Bool.false_eq_true, if_false, if_true]

lemma track_message_partner_plain (db : DB) (m : Inbound) (now tmo : Time)
    (hp : is_employee db m.senderId = false)
    (hr : m.repliedTo = none)
    (hdup : hasMessage db m.chatId m.messageId = false) :
    track_message db m now tmo =
      { (handle_partner_message db m now tmo).1 with
        messages := (handle_partner_message db m now tmo).1.messages ++
          [storedRow m now true (handle_partner_message db m now tmo).2] } := by
  unfold track_message
  simp only [hp, Bool.not_false, if_true]
  have hd : hasMessage (handle_partner_message db m now tmo).1
      m.chatId m.messageId = false := by
    unfold hasMessage
    rw [(handle_partner_proj db m now tmo).1]
    exact hdup
  simp only [hd, Bool.false_eq_true, if_false, hr]

lemma track_message_partner_reply (db : DB) (m : Inbound) (now tmo : Time)
    (rt : Nat × Time)
    (hp : is_employee db m.senderId = false)
    (hr : m.repliedTo = some rt)
    (hdup : hasMessage db m.chatId m.messageId = false) :
    track_message db m now tmo =
      track_response_metrics
        { (handle_partner_message db m now tmo).1 with
          messages := (handle_partner_message db m now tmo).1.messages ++
            [storedRow m now true (handle_partner_message db m now tmo).2] }
        m now rt.1 rt.2 := by
  unfold track_message
  simp only [hp, Bool.not_false, if_true]
  have hd : hasMessage (handle_partner_message db m now tmo).1
      m.chatId m.messageId = false := by
    unfold hasMessage
    rw [(handle_partner_proj db m now tmo).1]
    exact hdup
  simp only [hd, Bool.false_eq_true, if_false, hr]

lemma track_message_employee_reply (db : DB) (m : Inbound) (now tmo : Time)
    (rt : Nat × Time)
    (hemp : is_employee db m.senderId = true)
    (hnolp : lastPartnerMsg db m.chatId = none)
    (hr : m.repliedTo = some rt)
    (hdup : hasMessage db m.chatId m.messageId = false) :
    track_message db m now tmo =
      track_response_metrics
        { db with messages := db.messages ++ [storedRow m now false none] }
        m now rt.1 rt.2 := by
  unfold track_message
  simp only [hemp, hnolp, hdup, Bool.not_true, Bool.false_eq_true,
    if_false, if_true, hr]

lemma track_message_employee_plain (db : DB) (m : Inbound) (now tmo : Time)
    (hemp : is_employee db m.senderId = true)
    (hnolp : lastPartnerMsg db m.chatId = none)
    (hr : m.repliedTo = none)
    (hdup : hasMessage db m.chatId m.messageId = false) :
    track_message db m now tmo =
      { db with messages := db.messages ++ [storedRow m now false none] } := by
  unfold track_message
  simp only [hemp, hnolp, hdup, Bool.not_true, Bool.false_eq_true,
    if_false, if_true, hr]

lemma find?_filter_not {α : Type} (p : α → Bool) (l : List α) :
    (l.filter (fun a => !(p a))).find? p = none := by
  rw [List.find?_eq_none]
  intro a ha hpa
  have h2 := (List.mem_filter.mp ha).2
  rw [hpa] at h2
  exact absurd h2 (by simp)

lemma any_map_comp {α β : Type} (g : α → Bool) (f : β → α) (l : List β) :
    (l.map f).any g = l.any (fun b => g (f b)) := by
  induction l with
  | nil => rfl
  | cons a l ih => simp [List.any_cons, ih]

lemma hasMessage_markAnswered (db : DB) (c i c2 i2 : Nat) :
    hasMessage (markAnswered db c i) c2 i2 = hasMessage db c2 i2 := by
  unfold hasMessage markAnswered
  rw [any_map_comp]
  congr 1
  funext r
  by_cases hr : (r.chatId == c && r.messageId == i) = true
  · simp only [hr, if_true]
  · simp only [hr, Bool.false_eq_true, if_false]

lemma hasMessage_trs (db : DB) (m : Inbound) (now : Time) (i u : Nat)
    (lts : Time) (c j : Nat) :
    hasMessage (track_response_metrics_simple db m now i u lts) c j =
      hasMessage db c j := by
  unfold track_response_metrics_simple
  by_cases h : hasMetric db m.chatId m.messageId = true
  · simp only [h, eq_self_iff_true, if_true, hasMessage_markAnswered]
  · simp only [h, Bool.false_eq_true, if_false, hasMessage_markAnswered]
    rfl

lemma hasMetric_false_of_count_zero {db : DB} {c i : Nat}
    (h : countMetric db c i = 0) : hasMetric db c i = false := by
  unfold countMetric at h
  have hnil := List.length_eq_zero.mp h
  unfold hasMetric
  rw [List.any_eq_false]
  exact List.filter_eq_nil_iff.mp hnil

lemma track_response_metrics_simple_metrics_new (db : DB) (m : Inbound)
    (now : Time) (i u : Nat) (lts : Time)
    (hmet : hasMetric db m.chatId m.messageId = false) :
    (track_response_metrics_simple db m now i u lts).metrics =
      db.metrics ++
        [{ replyMessageId := m.messageId, originalMessageId := i,
           responderUserId := m.senderId, originalSenderUserId := some u,
           chatId := m.chatId, responseDurationSeconds := now - lts,
           timestamp := now }] := by
  unfold track_response_metrics_simple markAnswered
  simp [hmet]

lemma track_response_metrics_metrics_new (db : DB) (m : Inbound)
    (now : Time) (oid : Nat) (od : Time)
    (hmet : hasMetric db m.chatId m.messageId = false) :
    (track_response_metrics db m now oid od).metrics =
      db.metrics ++
        [{ replyMessageId := m.messageId, originalMessageId := oid,
           responderUserId := m.senderId,
           originalSenderUserId :=
             (db.messages.find? (fun r =>
               r.chatId == m.chatId && r.messageId == oid)).map
               (fun r => r.userId),
           chatId := m.chatId, responseDurationSeconds := m.date - od,
           timestamp := now }] := by
  unfold track_response_metrics markAnswered
  simp [hmet]

lemma hasMessage_trm (db : DB) (m : Inbound) (now : Time) (oid : Nat)
    (od : Time) (c j : Nat) :
    hasMessage (track_response_metrics db m now oid od) c j =
      hasMessage db c j := by
  unfold track_response_metrics
  by_cases h : hasMetric db m.chatId m.messageId = true
  · simp only [h, eq_self_iff_true, if_true, hasMessage_markAnswered]
  · simp only [h, Bool.false_eq_true, if_false, hasMessage_markAnswered]
    rfl

lemma hasMessage_append_self (db0 : DB) (m : Inbound) (now : Time)
    (b : Bool) (tid : Option Nat) :
    hasMessage
      { db0 with messages := db0.messages ++ [storedRow m now b tid] }
      m.chatId m.messageId = true := by
  unfold hasMessage
  rw [List.any_append]
  simp [storedRow]

lemma trs_of_hasMetric (db : DB) (m : Inbound) (now : Time) (i u : Nat)
    (lts : Time) (h : hasMetric db m.chatId m.messageId = true) :
    track_response_metrics_simple db m now i u lts =
      markAnswered db m.chatId i := by
  unfold track_response_metrics_simple
  simp only [h, eq_self_iff_true, if_true]

lemma trs_of_not_hasMetric (db : DB) (m : Inbound) (now : Time) (i u : Nat)
    (lts : Time) (h : hasMetric db m.chatId m.messageId = false) :
    track_response_metrics_simple db m now i u lts =
      markAnswered
        { db with metrics := db.metrics ++
            [{ replyMessageId := m.messageId, originalMessageId := i,
               responderUserId := m.senderId, originalSenderUserId := some u,
               chatId := m.chatId, responseDurationSeconds := now - lts,
               timestamp := now }] }
        m.chatId i := by
  unfold track_response_metrics_simple
  simp only [h, Bool.false_eq_true, if_false]

lemma mark_map_idem (c i : Nat) (l : List MsgRow) :
    ((l.map (fun r => if r.chatId == c && r.messageId == i then
        { r with wasAnswered := true } else r)).map
      (fun r => if r.chatId == c && r.messageId == i then
        { r with wasAnswered := true } else r)) =
    l.map (fun r => if r.chatId == c && r.messageId == i then
        { r with wasAnswered := true } else r) := by
  induction l with
  | nil => rfl
  | cons a l ih =>
    simp only [List.map_cons, ih]
    by_cases ha : (a.chatId == c && a.messageId == i) = true
    · simp [ha]
    · simp [ha]

lemma markAnswered_idem (db : DB) (c i : Nat) :
    markAnswered (markAnswered db c i) c i = markAnswered db c i := by
  unfold markAnswered
  congr 1
  exact mark_map_idem c i db.messages

lemma activityKeys_update_act (db : DB) (X : Nat → Int → Option ActivityVals)
    (today : Int) :
    activityKeys { db with activity := X } today = activityKeys db today := rfl

lemma activityRowFor_update_act (db : DB) (X : Nat → Int → Option ActivityVals)
    (today : Int) (uid : Nat) :
    activityRowFor { db with activity := X } today uid =
      activityRowFor db today uid := rfl

/-- Claim C1 (the code violates it): processing a duplicate delivery of a
partner message is not a no-op.  `track_message` runs `handle_partner_message`
before the duplicate check, so the redelivered message extends the open turn
(`lastActivityAt` moves to the redelivery time, `reminded` is cleared) and the
early return lets that mutation commit, even though the message insert itself
was rejected as a duplicate; the message log is unchanged. -/
theorem duplicate_partner_delivery_mutates_turn :
    (track_message (mark_reminded (track_message dbEmpty c1m 0 3600) 1)
        c1m 10 3600).messages =
      (mark_reminded (track_message dbEmpty c1m 0 3600) 1).messages ∧
    (mark_reminded (track_message dbEmpty c1m 0 3600) 1).turns.map
      (fun t => (t.lastMessageTimestamp, t.reminded)) = [(0, true)] ∧
    (track_message (mark_reminded (track_message dbEmpty c1m 0 3600) 1)
        c1m 10 3600).turns.map
      (fun t => (t.lastMessageTimestamp, t.reminded)) = [(10, false)] := by
  decide

/-- Claim C2, counterexample: after a duplicate partner delivery has advanced
the open turn's `lastActivityAt` to 5 without storing a new message row, the
employee reply at time 10 closes that turn but records `durationSeconds = 10`
(now minus the stored row's timestamp 0), not `now - lastActivityAt = 5`. -/
theorem metric_duration_ignores_turn_activity :
    (track_message (track_message c2db0 c2m1 0 3600) c2m1 5 3600).turns.map
      (fun t => t.lastMessageTimestamp) = [5] ∧
    (track_message (track_message (track_message c2db0 c2m1 0 3600)
        c2m1 5 3600) c2me 10 3600).turns = [] ∧
    (track_message (track_message (track_message c2db0 c2m1 0 3600)
        c2m1 5 3600) c2me 10 3600).metrics.map
      (fun r => r.responseDurationSeconds) = [10] ∧
    ¬ ((10 : Time) = 10 - 5) := by
  decide

/-- Claim C2 (amended): when an employee message closes the open turn of the
last partner message's sender, the recorded metric has `durationSeconds`
equal to `now` minus the timestamp of the most recent partner `messages` row
of the chat, and `originalMessageId` equal to that row's message id (these
coincide with the closed turn's `lastActivityAt`/`lastMessageId` except when
a duplicate delivery advanced the turn without storing a row). -/
theorem employee_close_metric_uses_last_partner_row (db : DB) (m : Inbound)
    (now tmo : Time) (lp : MsgRow)
    (hemp : is_employee db m.senderId = true)
    (hlp : lastPartnerMsg db m.chatId = some lp)
    (hdup : hasMessage db m.chatId m.messageId = false)
    (hmet : hasMetric db m.chatId m.messageId = false)
    (hopen : (findOpenTurn db m.chatId lp.userId).isSome = true) :
    findOpenTurn (track_message db m now tmo) m.chatId lp.userId = none ∧
    ∃ r, r ∈ (track_message db m now tmo).metrics ∧
      r.chatId = m.chatId ∧ r.replyMessageId = m.messageId ∧
      r.responseDurationSeconds = now - lp.timestamp ∧
      r.originalMessageId = lp.messageId := by
  rw [track_message_employee_simple db m now tmo lp hemp hlp hdup]
  constructor
  · unfold findOpenTurn
    rw [(track_response_metrics_simple_proj _ m now
          lp.messageId lp.userId lp.timestamp).1]
    exact find?_filter_not (keyPred m.chatId lp.userId) _
  · have hmet3 : hasMetric
        (handle_employee_reply_simple
          { db with messages := db.messages ++ [storedRow m now false none] }
          m lp.userId) m.chatId m.messageId = false := hmet
    rw [track_response_metrics_simple_metrics_new _ m now
          lp.messageId lp.userId lp.timestamp hmet3]
    exact ⟨_, List.mem_append_right _ (List.mem_singleton_self _),
           rfl, rfl, rfl, rfl⟩

/-- Witness for the amended C2 theorem at a concrete store: employee 200
replies at time 30 to partner 100's message stored at time 0 with an open
turn; the turn closes and the metric carries duration 30 and original id 1. -/
theorem employee_close_metric_uses_last_partner_row_witness :
    findOpenTurn (track_message c2wdb c2wm 30 3600) 1 100 = none ∧
    ∃ r, r ∈ (track_message c2wdb c2wm 30 3600).metrics ∧
      r.chatId = 1 ∧ r.replyMessageId = 2 ∧
      r.responseDurationSeconds = 30 - 0 ∧ r.originalMessageId = 1 :=
  employee_close_metric_uses_last_partner_row c2wdb c2wm 30 3600
    ⟨100, 1, 1, "q", 0, none, false, true, some 1⟩
    (by decide) (by decide) (by decide) (by decide) (by decide)

/-- Claim C3, counterexample: a duplicate partner delivery past the turn
timeout replaces the turn (old turn 1 deleted, fresh turn 2 committed) while
the message insert fails, leaving the message log unchanged — the transition
of that event is partially applied, not atomic. -/
theorem duplicate_delivery_commits_partial_transition :
    (track_message (track_message dbEmpty c3m 0 3600) c3m 5000 3600).messages =
      (track_message dbEmpty c3m 0 3600).messages ∧
    (track_message dbEmpty c3m 0 3600).turns.map
      (fun t => (t.turnId, t.turnStartTimestamp)) = [(1, 0)] ∧
    (track_message (track_message dbEmpty c3m 0 3600) c3m 5000 3600).turns.map
      (fun t => (t.turnId, t.turnStartTimestamp)) = [(2, 5000)] := by
  decide

/-- Claim C3 (amended): processing of a non-duplicate inbound message is
total and commits all of its persistence steps into the one resulting
state: the Message row is always stored; a partner sender's turn transition
is applied in that same state; an employee sender with a logged partner
message has the matching turn deleted and the (fresh) response metric
written in that same state; and the explicit-reply recorder's metric write
also lands in that same state.  Atomicity fails only on the duplicate
early-return path. -/
theorem non_duplicate_message_commits_atomically (db : DB) (m : Inbound)
    (now tmo : Time)
    (hdup : hasMessage db m.chatId m.messageId = false) :
    hasMessage (track_message db m now tmo) m.chatId m.messageId = true ∧
    (is_employee db m.senderId = false →
      (track_message db m now tmo).turns =
        (handle_partner_message db m now tmo).1.turns) ∧
    (∀ lp : MsgRow, is_employee db m.senderId = true →
      lastPartnerMsg db m.chatId = some lp →
      (track_message db m now tmo).turns =
        db.turns.filter (fun t => !(keyPred m.chatId lp.userId t)) ∧
      (hasMetric db m.chatId m.messageId = false →
        ∃ r, r ∈ (track_message db m now tmo).metrics ∧
          r.chatId = m.chatId ∧ r.replyMessageId = m.messageId ∧
          r.originalMessageId = lp.messageId)) ∧
    (∀ rt : Nat × Time, m.repliedTo = some rt →
      (is_employee db m.senderId = false ∨
        lastPartnerMsg db m.chatId = none) →
      hasMetric db m.chatId m.messageId = false →
      ∃ r, r ∈ (track_message db m now tmo).metrics ∧
        r.chatId = m.chatId ∧ r.replyMessageId = m.messageId ∧
        r.originalMessageId = rt.1) := by
  refine ⟨?_, ?_, ?_, ?_⟩
  · by_cases hemp : is_employee db m.senderId = true
    · cases hlp : lastPartnerMsg db m.chatId with
      | some lp =>
        rw [track_message_employee_simple db m now tmo lp hemp hlp hdup]
        rw [hasMessage_trs]
        exact hasMessage_append_self db m now false none
      | none =>
        cases hr : m.repliedTo with
        | some rt =>
          rw [track_message_employee_reply db m now tmo rt hemp hlp hr hdup]
          rw [hasMessage_trm]
          exact hasMessage_append_self db m now false none
        | none =>
          rw [track_message_employee_plain db m now tmo hemp hlp hr hdup]
          exact hasMessage_append_self db m now false none
    · have hp : is_employee db m.senderId = false := Bool.eq_false_iff.mpr hemp
      cases hr : m.repliedTo with
      | some rt =>
        rw [track_message_partner_reply db m now tmo rt hp hr hdup]
        rw [hasMessage_trm]
        exact hasMessage_append_self _ m now true _
      | none =>
        rw [track_message_partner_plain db m now tmo hp hr hdup]
        exact hasMessage_append_self _ m now true _
  · intro hp
    exact (track_message_partner_proj db m now tmo hp).1
  · intro lp hemp hlp
    rw [track_message_employee_simple db m now tmo lp hemp hlp hdup]
    constructor
    · rw [(track_response_metrics_simple_proj _ m now
            lp.messageId lp.userId lp.timestamp).1]
      rfl
    · intro hmet
      have hmet3 : hasMetric
          (handle_employee_reply_simple
            { db with messages := db.messages ++ [storedRow m now false none] }
            m lp.userId) m.chatId m.messageId = false := hmet
      rw [track_response_metrics_simple_metrics_new _ m now
            lp.messageId lp.userId lp.timestamp hmet3]
      exact ⟨_, List.mem_append_right _ (List.mem_singleton_self _),
             rfl, rfl, rfl⟩
  · intro rt hr hside hmet
    by_cases hemp : is_employee db m.senderId = true
    · have hnolp : lastPartnerMsg db m.chatId = none := by
        rcases hside with hfalse | hnone
        · rw [hemp] at hfalse
          exact absurd hfalse (by simp)
        · exact hnone
      rw [track_message_employee_reply db m now tmo rt hemp hnolp hr hdup]
      have hmet3 : hasMetric
          { db with messages := db.messages ++ [storedRow m now false none] }
          m.chatId m.messageId = false := hmet
      rw [track_response_metrics_metrics_new _ m now rt.1 rt.2 hmet3]
      exact ⟨_, List.mem_append_right _ (List.mem_singleton_self _),
             rfl, rfl, rfl⟩
    · have hp : is_employee db m.senderId = false := Bool.eq_false_iff.mpr hemp
      rw [track_message_partner_reply db m now tmo rt hp hr hdup]
      have hmet3 : hasMetric
          { (handle_partner_message db m now tmo).1 with
            messages := (handle_partner_message db m now tmo).1.messages ++
              [storedRow m now true (handle_partner_message db m now tmo).2] }
          m.chatId m.messageId = false := by
        show ((handle_partner_message db m now tmo).1.metrics.any (fun r =>
          r.chatId == m.chatId && r.replyMessageId == m.messageId)) = false
        rw [(handle_partner_proj db m now tmo).2.1]
        exact hmet
      rw [track_response_metrics_metrics_new _ m now rt.1 rt.2 hmet3]
      exact ⟨_, List.mem_append_right _ (List.mem_singleton_self _),
             rfl, rfl, rfl⟩

/-- Witness for the amended C3 theorem at a concrete store: employee 201's
non-duplicate reply in chat 11 stores the message row, deletes partner 102's
open turn and writes the metric, all in the one resulting state. -/
theorem non_duplicate_message_commits_atomically_witness :
    hasMessage (track_message c3wdb2 c3wm2 20 3600) 11 2 = true ∧
    (track_message c3wdb2 c3wm2 20 3600).turns =
      c3wdb2.turns.filter (fun t => !(keyPred 11 102 t)) ∧
    ∃ r, r ∈ (track_message c3wdb2 c3wm2 20 3600).metrics ∧
      r.chatId = 11 ∧ r.replyMessageId = 2 ∧ r.originalMessageId = 1 :=
  have h := non_duplicate_message_commits_atomically c3wdb2 c3wm2 20 3600
    (by decide)
  ⟨h.1,
   (h.2.2.1 ⟨102, 11, 1, "q", 0, none, false, true, some 1⟩
      (by decide) (by decide)).1,
   (h.2.2.1 ⟨102, 11, 1, "q", 0, none, false, true, some 1⟩
      (by decide) (by decide)).2 (by decide)⟩

/-- Claim C4, counterexample: the store holds a partner message row but no
open turn, yet the employee message still records a ResponseMetric — a
metric without any turn closing. -/
theorem metric_recorded_without_turn_close :
    c4db.turns = [] ∧
    (track_message c4db c4m 40 3600).metrics.map
      (fun r => (r.replyMessageId, r.originalMessageId)) = [(2, 1)] := by
  decide

/-- Claim C4 (amended): an employee message records a metric from the simple
path whenever some partner message row exists in the chat, whether or not an
open turn is closed; with no open turn for that partner the turn table is
untouched and the reply is still logged as a message. -/
theorem employee_metric_without_open_turn (db : DB) (m : Inbound)
    (now tmo : Time) (lp : MsgRow)
    (hemp : is_employee db m.senderId = true)
    (hlp : lastPartnerMsg db m.chatId = some lp)
    (hdup : hasMessage db m.chatId m.messageId = false)
    (hmet : hasMetric db m.chatId m.messageId = false)
    (hnoturn : findOpenTurn db m.chatId lp.userId = none) :
    (track_message db m now tmo).turns = db.turns ∧
    hasMessage (track_message db m now tmo) m.chatId m.messageId = true ∧
    ∃ r, r ∈ (track_message db m now tmo).metrics ∧
      r.chatId = m.chatId ∧ r.replyMessageId = m.messageId ∧
      r.originalMessageId = lp.messageId := by
  rw [track_message_employee_simple db m now tmo lp hemp hlp hdup]
  refine ⟨?_, ?_, ?_⟩
  · rw [(track_response_metrics_simple_proj _ m now
          lp.messageId lp.userId lp.timestamp).1]
    show db.turns.filter (fun t => !(keyPred m.chatId lp.userId t)) = db.turns
    apply List.filter_eq_self.mpr
    intro t ht
    have hnp := List.find?_eq_none.mp hnoturn t ht
    rw [Bool.not_eq_true']
    exact Bool.eq_false_iff.mpr hnp
  · rw [hasMessage_trs]
    show hasMessage
      { db with messages := db.messages ++ [storedRow m now false none] }
      m.chatId m.messageId = true
    unfold hasMessage
    rw [List.any_append]
    simp [storedRow]
  · have hmet3 : hasMetric
        (handle_employee_reply_simple
          { db with messages := db.messages ++ [storedRow m now false none] }
          m lp.userId) m.chatId m.messageId = false := hmet
    rw [track_response_metrics_simple_metrics_new _ m now
          lp.messageId lp.userId lp.timestamp hmet3]
    exact ⟨_, List.mem_append_right _ (List.mem_singleton_self _),
           rfl, rfl, rfl⟩

/-- Witness for the amended C4 theorem: employee 300 writes in chat 6 where
partner 100's row is logged but no turn is open; the turn table stays empty
and a metric referencing message 1 appears. -/
theorem employee_metric_without_open_turn_witness :
    (track_message c4wdb c4wm 25 3600).turns = c4wdb.turns ∧
    hasMessage (track_message c4wdb c4wm 25 3600) 6 2 = true ∧
    ∃ r, r ∈ (track_message c4wdb c4wm 25 3600).metrics ∧
      r.chatId = 6 ∧ r.replyMessageId = 2 ∧ r.originalMessageId = 1 :=
  employee_metric_without_open_turn c4wdb c4wm 25 3600
    ⟨100, 6, 1, "q", 0, none, false, true, none⟩
    (by decide) (by decide) (by decide) (by decide) (by decide)

/-- Claim C5: two partner messages on the same `(conversationId, partnerId)`
key arriving within the turn timeout leave exactly one open turn for the key,
whose `lastMessageId` is the second message's id, whose `lastActivityAt` is
the second arrival time, and whose `reminded` flag is cleared. -/
theorem two_partner_messages_within_timeout (db : DB) (m1 m2 : Inbound)
    (t1 t2 tmo : Time) (hwf : dbWF db = true)
    (hp : is_employee db m1.senderId = false)
    (hchat : m2.chatId = m1.chatId) (hsender : m2.senderId = m1.senderId)
    (hgap : t2 - t1 < tmo) :
    ∃ t, ((track_message (track_message db m1 t1 tmo) m2 t2 tmo).turns.filter
        (keyPred m1.chatId m1.senderId)) = [t] ∧
      t.lastPartnerMessageId = m2.messageId ∧
      t.lastMessageTimestamp = t2 ∧ t.reminded = false := by
  have hproj1 := track_message_partner_proj db m1 t1 tmo hp
  have hwf1 : dbWF (track_message db m1 t1 tmo) = true := by
    have hh := handle_partner_WF db m1 t1 tmo hwf
    unfold dbWF at hh ⊢
    rw [hproj1.1, hproj1.2.1]
    exact hh
  have hp2 : is_employee (track_message db m1 t1 tmo) m2.senderId = false := by
    show (track_message db m1 t1 tmo).employees.contains m2.senderId = false
    rw [hproj1.2.2.1, hsender]
    exact hp
  have hproj2 := track_message_partner_proj (track_message db m1 t1 tmo)
    m2 t2 tmo hp2
  obtain ⟨t, hfil, hid, _, hts, hrem⟩ :=
    handle_partner_key (track_message db m1 t1 tmo) m2 t2 tmo hwf1
  refine ⟨t, ?_, hid, hts, hrem⟩
  rw [hproj2.1]
  rw [hchat, hsender] at hfil
  exact hfil

/-- Witness for C5: partner 100's messages 1 and 2 in chat 1 arrive 10
seconds apart, well inside the 3600-second timeout. -/
theorem two_partner_messages_within_timeout_witness :
    ∃ t, ((track_message (track_message dbEmpty c5m1 0 3600)
        c5m2 10 3600).turns.filter (keyPred 1 100)) = [t] ∧
      t.lastPartnerMessageId = 2 ∧ t.lastMessageTimestamp = 10 ∧
      t.reminded = false :=
  two_partner_messages_within_timeout dbEmpty c5m1 c5m2 0 10 3600
    (by decide) (by decide) rfl rfl (by decide)

/-- Claim C6, counterexample: M2 arrives past the timeout but carries an
explicit reply link to M1, so alongside the turn replacement the explicit
recorder `track_response_metrics` stores a metric whose `originalMessageId`
is M1 — refuting "no ResponseMetric is ever generated for M1". -/
theorem metric_for_expired_turn_via_reply_link :
    (track_message (track_message dbEmpty c6m1 0 3600)
        c6m2 4000 3600).metrics.map (fun r => r.originalMessageId) = [1] ∧
    (track_message (track_message dbEmpty c6m1 0 3600)
        c6m2 4000 3600).turns.map (fun t => t.turnId) = [2] := by
  decide

/-- Claim C6 (amended): two partner messages on one key separated by more
than the turn timeout leave exactly one turn, a fresh one started at and
referencing only M2; when neither message carries an explicit reply link the
metric table is untouched, so the turn replacement itself never produces a
metric for M1. -/
theorem replacement_after_timeout_fresh_turn_no_metric (db : DB)
    (m1 m2 : Inbound) (t1 t2 tmo : Time) (hwf : dbWF db = true)
    (hp : is_employee db m1.senderId = false)
    (hchat : m2.chatId = m1.chatId) (hsender : m2.senderId = m1.senderId)
    (hgap : tmo < t2 - t1)
    (hr1 : m1.repliedTo = none) (hr2 : m2.repliedTo = none) :
    (∃ t, ((track_message (track_message db m1 t1 tmo) m2 t2 tmo).turns.filter
        (keyPred m1.chatId m1.senderId)) = [t] ∧
      t.lastPartnerMessageId = m2.messageId ∧
      t.turnStartTimestamp = t2 ∧ t.lastMessageTimestamp = t2 ∧
      t.reminded = false) ∧
    (track_message (track_message db m1 t1 tmo) m2 t2 tmo).metrics =
      db.metrics := by
  have hproj1 := track_message_partner_proj db m1 t1 tmo hp
  have hwf1 : dbWF (track_message db m1 t1 tmo) = true := by
    have hh := handle_partner_WF db m1 t1 tmo hwf
    unfold dbWF at hh ⊢
    rw [hproj1.1, hproj1.2.1]
    exact hh
  have hp2 : is_employee (track_message db m1 t1 tmo) m2.senderId = false := by
    show (track_message db m1 t1 tmo).employees.contains m2.senderId = false
    rw [hproj1.2.2.1, hsender]
    exact hp
  have hproj2 := track_message_partner_proj (track_message db m1 t1 tmo)
    m2 t2 tmo hp2
  obtain ⟨ta, hfilA, _, _, htsA, _⟩ := handle_partner_key db m1 t1 tmo hwf
  have hfilA1 : (track_message db m1 t1 tmo).turns.filter
      (keyPred m1.chatId m1.senderId) = [ta] := by
    rw [hproj1.1]
    exact hfilA
  have hfind : findOpenTurn (track_message db m1 t1 tmo)
      m2.chatId m2.senderId = some ta := by
    unfold findOpenTurn
    rw [hchat, hsender]
    exact find?_of_filter_singleton hfilA1
  have hout : ¬ (t2 - ta.lastMessageTimestamp < tmo) := by
    rw [htsA]
    intro hcon
    exact absurd (lt_trans hgap hcon) (lt_irrefl tmo)
  obtain ⟨t, hfil2, hid2, hstart2, hts2, hrem2⟩ :=
    handle_partner_key_fresh (track_message db m1 t1 tmo) m2 t2 tmo ta
      hwf1 hfind hout
  constructor
  · refine ⟨t, ?_, hid2, hstart2, hts2, hrem2⟩
    rw [hproj2.1]
    rw [hchat, hsender] at hfil2
    exact hfil2
  · rw [hproj2.2.2.2 hr2, hproj1.2.2.2 hr1]

/-- Witness for the amended C6 theorem: partner 100's messages 1 and 2 in
chat 8, 9000 seconds apart with a 3600-second timeout and no reply links. -/
theorem replacement_after_timeout_fresh_turn_no_metric_witness :
    (∃ t, ((track_message (track_message dbEmpty c6wm1 0 3600)
        c6wm2 9000 3600).turns.filter (keyPred 8 100)) = [t] ∧
      t.lastPartnerMessageId = 2 ∧ t.turnStartTimestamp = 9000 ∧
      t.lastMessageTimestamp = 9000 ∧ t.reminded = false) ∧
    (track_message (track_message dbEmpty c6wm1 0 3600)
        c6wm2 9000 3600).metrics = dbEmpty.metrics :=
  replacement_after_timeout_fresh_turn_no_metric dbEmpty c6wm1 c6wm2 0 9000
    3600 (by decide) (by decide) rfl rfl (by decide) rfl rfl

/-- Claim C7, counterexample: turn 1 (partner 100) was created before turn 2
(partner 101) but extended later, so the scan, which has no ORDER BY, returns
activity times [5, 1] — table order, not oldest-first. -/
theorem scan_overdue_not_oldest_first :
    (scan_overdue c7run 5000 3600).map (fun t => t.lastMessageTimestamp) =
      [5, 1] ∧
    ¬ List.Sorted (fun a b => a ≤ b)
        ((scan_overdue c7run 5000 3600).map (fun t => t.lastMessageTimestamp)) := by
  decide

/-- Claim C7 (amended): the scan returns exactly the turns with
`reminded = false` and `now - lastActivityAt` strictly above the threshold,
in table order rather than oldest-first; a turn marked reminded is excluded
from every subsequent scan (until an extension clears the flag again). -/
theorem scan_overdue_membership_and_reminder_exclusion (db : DB)
    (now thr : Time) (tid : Nat) :
    scan_overdue db now thr = db.turns.filter (overduePred now thr) ∧
    (∀ t ∈ scan_overdue db now thr,
      t.reminded = false ∧ thr < now - t.lastMessageTimestamp) ∧
    (∀ t ∈ scan_overdue (mark_reminded db tid) now thr, t.turnId ≠ tid) := by
  refine ⟨rfl, ?_, ?_⟩
  · intro t ht
    have hov := (List.mem_filter.mp ht).2
    unfold overduePred at hov
    rw [Bool.and_eq_true] at hov
    refine ⟨beq_iff_eq.mp hov.1, ?_⟩
    have h2 := hov.2
    rw [decide_eq_true_eq] at h2
    exact h2
  · intro t ht htid
    obtain ⟨hmem, hov⟩ := List.mem_filter.mp ht
    obtain ⟨u, hu, hmap⟩ := List.mem_map.mp hmem
    by_cases hb : (u.turnId == tid) = true
    · rw [if_pos hb] at hmap
      rw [← hmap] at hov
      simp [overduePred] at hov
    · rw [if_neg hb] at hmap
      rw [← hmap] at htid
      exact hb (beq_iff_eq.mpr htid)

/-- Witness for the amended C7 theorem: after marking turn 1 reminded in the
three-message run, the turn returned by the scan is not turn 1. -/
theorem scan_overdue_membership_and_reminder_exclusion_witness :
    (⟨2, 1, 101, 2, "b", 1, 1, false⟩ : Turn).turnId ≠ 1 :=
  (scan_overdue_membership_and_reminder_exclusion c7run 5000 3600 1).2.2
    ⟨2, 1, 101, 2, "b", 1, 1, false⟩ (by decide)

/-- Claim C8: closing a key with no open turn leaves the store unchanged, and
recording the same `(conversationId, replyMessageId)` twice yields exactly
one ResponseMetric row, the second call being a silent no-op. -/
theorem close_and_record_idempotent (db : DB) (m : Inbound) (pid : Nat)
    (now1 now2 : Time) (i u : Nat) (lts : Time)
    (hclose : findOpenTurn db m.chatId pid = none)
    (hfresh : countMetric db m.chatId m.messageId = 0) :
    handle_employee_reply_simple db m pid = db ∧
    countMetric (track_response_metrics_simple db m now1 i u lts)
      m.chatId m.messageId = 1 ∧
    track_response_metrics_simple
      (track_response_metrics_simple db m now1 i u lts) m now2 i u lts =
      track_response_metrics_simple db m now1 i u lts := by
  have hmetF : hasMetric db m.chatId m.messageId = false :=
    hasMetric_false_of_count_zero hfresh
  refine ⟨?_, ?_, ?_⟩
  · unfold handle_employee_reply_simple
    have hall : ∀ t ∈ db.turns, (!(keyPred m.chatId pid t)) = true := by
      intro t ht
      have hnp := List.find?_eq_none.mp hclose t ht
      rw [Bool.not_eq_true']
      exact Bool.eq_false_iff.mpr hnp
    rw [List.filter_eq_self.mpr hall]
  · unfold countMetric
    rw [track_response_metrics_simple_metrics_new db m now1 i u lts hmetF]
    rw [List.filter_append]
    have hf0 : db.metrics.filter (fun r =>
        r.chatId == m.chatId && r.replyMessageId == m.messageId) = [] := by
      unfold countMetric at hfresh
      exact List.length_eq_zero.mp hfresh
    rw [hf0]
    simp
  · have hmetT : hasMetric (track_response_metrics_simple db m now1 i u lts)
        m.chatId m.messageId = true := by
      unfold hasMetric
      rw [track_response_metrics_simple_metrics_new db m now1 i u lts hmetF]
      rw [List.any_append]
      simp
    rw [trs_of_hasMetric _ m now2 i u lts hmetT]
    rw [trs_of_not_hasMetric db m now1 i u lts hmetF]
    exact markAnswered_idem _ m.chatId i

/-- Witness for C8: employee 200's message 4 in chat 9 on a store with no
turns and no metrics — the close is a no-op and the double record leaves one
row. -/
theorem close_and_record_idempotent_witness :
    handle_employee_reply_simple c8db c8m 100 = c8db ∧
    countMetric (track_response_metrics_simple c8db c8m 60 1 100 0) 9 4 = 1 ∧
    track_response_metrics_simple
      (track_response_metrics_simple c8db c8m 60 1 100 0) c8m 75 1 100 0 =
      track_response_metrics_simple c8db c8m 60 1 100 0 :=
  close_and_record_idempotent c8db c8m 100 60 75 1 100 0
    (by decide) (by decide)

/-- Claim C9: the daily aggregation is idempotent — running
`update_employee_activity_summary` twice for the same date leaves the same
DailySummary table as running it once, every touched `(userId, date)` row
being recomputed from the unchanged logs and overwritten. -/
theorem daily_summary_idempotent (db : DB) (today : Int) :
    (update_employee_activity_summary
      (update_employee_activity_summary db today) today).activity =
      (update_employee_activity_summary db today).activity := by
  by_cases h : ((activityKeys db today).all
      (fun uid => db.employees.contains uid)) = true
  · have h1 : update_employee_activity_summary db today =
        { db with activity := summaryWrite db today } := by
      unfold update_employee_activity_summary
      rw [if_pos h]
    rw [h1]
    have h2 : ((activityKeys { db with activity := summaryWrite db today }
        today).all (fun uid =>
          ({ db with activity := summaryWrite db today } : DB).employees.contains
            uid)) = true := h
    unfold update_employee_activity_summary
    rw [if_pos h2]
    show summaryWrite { db with activity := summaryWrite db today } today =
      summaryWrite db today
    funext uid d
    unfold summaryWrite
    rw [activityKeys_update_act, activityRowFor_update_act]
    by_cases hc : (d == today && (activityKeys db today).contains uid) = true
    · rw [if_pos hc, if_pos hc]
    · rw [if_neg hc, if_neg hc]
      show summaryWrite db today uid d = db.activity uid d
      unfold summaryWrite
      rw [if_neg hc]
  · have h1 : update_employee_activity_summary db today = db := by
      unfold update_employee_activity_summary
      rw [if_neg h]
    rw [h1, h1]

/-- Claim C10: when the employee-registry lookup fails (the store raises,
modelled by an `Except.error` outcome of the SELECT), `is_employee` returns
`False`, so the sender is classified as a Partner instead of the processing
crashing. -/
theorem employee_lookup_failure_defaults_to_partner (e : String) :
    is_employee_from (Except.error e) = false := rfl

end AffiliateBot
